import Mathlib

/-!
Verification of the lockout decision engine of django-axes
(`axes/helpers.py` and `axes/handlers/base.py`).

The Python code reads a global `settings` object; here the recognized
settings are gathered into an explicit `Settings` record passed to every
function.  Requests carry the fields the engine reads
(`axes_ip_address`, `method`, `POST`).  The failure-count lookup
(`AxesHandler.get_failures`, abstract in the source) is injected as an
integer argument.  Strings that may be Python `None` are `Option String`;
a Python setting that may be `None` or a collection is an
`Option (List String)` and its truthiness test (`if not settings.X`)
checks both for `none` and for the empty list.
-/

namespace Axes

/-- Outcome of resolving `settings.AXES_USERNAME_CALLABLE`:
unset (`None`/falsy), a callable, a dotted-path string (paired with the
function `import_string` resolves it to), or a configured value of any
other type (truthy but neither callable nor string). -/
inductive UsernameCallable where
  | unset
  | callable (f : List (String × String) → Option (List (String × String)) → Option String)
  | importable (path : String)
      (f : List (String × String) → Option (List (String × String)) → Option String)
  | invalid
deriving Inhabited

/-- The Axes settings read by the decision engine, mirroring the
`settings.AXES_*` attributes used in `axes/helpers.py` and
`axes/handlers/base.py`. -/
structure Settings where
  AXES_ONLY_USER_FAILURES : Bool
  AXES_LOCK_OUT_BY_COMBINATION_USER_AND_IP : Bool
  AXES_USE_USER_AGENT : Bool
  AXES_ONLY_WHITELIST : Bool
  AXES_NEVER_LOCKOUT_WHITELIST : Bool
  AXES_NEVER_LOCKOUT_GET : Bool
  AXES_IP_WHITELIST : Option (List String)
  AXES_IP_BLACKLIST : Option (List String)
  AXES_LOCK_OUT_AT_FAILURE : Bool
  AXES_FAILURE_LIMIT : Int
  AXES_USERNAME_FORM_FIELD : String
  AXES_USERNAME_CALLABLE : UsernameCallable

/-- The request fields the decision engine reads: the resolved client IP
(`request.axes_ip_address`, `None` when unresolvable), the HTTP method,
and the submitted form data (`request.POST`) as key/value pairs. -/
structure Request where
  axes_ip_address : Option String
  method : String
  POST : List (String × String)

/-- Python `dict.get(key, None)` on a string-keyed mapping represented
as an association list (first binding wins, as dict keys are unique). -/
def dictGet (d : List (String × String)) (key : String) : Option String :=
  (d.find? (fun kv => kv.1 == key)).map (fun kv => kv.2)

/-- Truthiness of an optional association list (Python `if credentials:`):
false for `None` and for the empty dict. -/
def dictTruthy (d : Option (List (String × String))) : Bool :=
  match d with
  | none => false
  | some l => !l.isEmpty

/-- Membership of a possibly-`None` IP address in a list of strings
(Python `ip_address in collection`): `None` is never a member. -/
def optMem (ip_address : Option String) (l : List String) : Bool :=
  match ip_address with
  | none => false
  | some a => l.contains a

/-- Embedding of `is_ip_address_in_whitelist` (`axes/helpers.py`):
returns `False` when `settings.AXES_IP_WHITELIST` is falsy
(`None` or empty), otherwise tests membership. -/
def is_ip_address_in_whitelist (s : Settings) (ip_address : Option String) : Bool :=
  match s.AXES_IP_WHITELIST with
  | none => false
  | some wl => if wl.isEmpty then false else optMem ip_address wl

/-- Embedding of `is_ip_address_in_blacklist` (`axes/helpers.py`). -/
def is_ip_address_in_blacklist (s : Settings) (ip_address : Option String) : Bool :=
  match s.AXES_IP_BLACKLIST with
  | none => false
  | some bl => if bl.isEmpty then false else optMem ip_address bl

/-- Embedding of `is_client_ip_address_whitelisted` (`axes/helpers.py`). -/
def is_client_ip_address_whitelisted (s : Settings) (request : Request) : Bool :=
  if s.AXES_NEVER_LOCKOUT_WHITELIST && is_ip_address_in_whitelist s request.axes_ip_address then
    true
  else if s.AXES_ONLY_WHITELIST && is_ip_address_in_whitelist s request.axes_ip_address then
    true
  else
    false

/-- Embedding of `is_client_ip_address_blacklisted` (`axes/helpers.py`). -/
def is_client_ip_address_blacklisted (s : Settings) (request : Request) : Bool :=
  if is_ip_address_in_blacklist s request.axes_ip_address then
    true
  else if s.AXES_ONLY_WHITELIST && !is_ip_address_in_whitelist s request.axes_ip_address then
    true
  else
    false

/-- Embedding of `is_client_method_whitelisted` (`axes/helpers.py`). -/
def is_client_method_whitelisted (s : Settings) (request : Request) : Bool :=
  if s.AXES_NEVER_LOCKOUT_GET && request.method == "GET" then true else false

/-- Embedding of `AxesHandler.is_blacklisted` (`axes/handlers/base.py`). -/
def is_blacklisted (s : Settings) (request : Request) : Bool :=
  if is_client_ip_address_blacklisted s request then true else false

/-- Embedding of `AxesHandler.is_whitelisted` (`axes/handlers/base.py`). -/
def is_whitelisted (s : Settings) (request : Request) : Bool :=
  if is_client_ip_address_whitelisted s request then true
  else if is_client_method_whitelisted s request then true
  else false

/-- Embedding of `AxesHandler.is_locked` (`axes/handlers/base.py`); the
result of `self.get_failures(request, credentials)` (abstract in the base
handler, implemented by the storage backends) is injected as `failures`. -/
def is_locked (s : Settings) (failures : Int) : Bool :=
  if s.AXES_LOCK_OUT_AT_FAILURE then failures ≥ s.AXES_FAILURE_LIMIT else false

/-- Embedding of `AxesHandler.is_allowed` (`axes/handlers/base.py`):
blacklist check, then whitelist check, then lockout check, each
short-circuiting.  `True` means Allowed, `False` means Denied. -/
def is_allowed (s : Settings) (request : Request) (failures : Int) : Bool :=
  if is_blacklisted s request then false
  else if is_whitelisted s request then true
  else if is_locked s failures then false
  else true

/-- Embedding of `get_client_parameters` (`axes/helpers.py`): the ordered
field-name/value mapping (a Python dict with insertion order) selecting
the tracked fields per the policy flags. -/
def get_client_parameters (s : Settings) (username ip_address user_agent : Option String) :
    List (String × Option String) :=
  if s.AXES_ONLY_USER_FAILURES then
    [("username", username)]
  else
    (if s.AXES_LOCK_OUT_BY_COMBINATION_USER_AND_IP then
      [("username", username), ("ip_address", ip_address)]
    else
      [("ip_address", ip_address)]) ++
    (if s.AXES_USE_USER_AGENT then [("user_agent", user_agent)] else [])

/-- Truthiness filter used by `get_client_cache_key`'s
`''.join(value for value in filter_kwargs.values() if value)`:
a value participates only when it is neither `None` nor the empty
string. -/
def truthyValue (v : Option String) : Option String :=
  match v with
  | none => none
  | some x => if x = "" then none else some x

/-- Embedding of `get_client_username` (`axes/helpers.py`).  A raised
`TypeError` is `Except.error`; normal returns are `Except.ok`.  The
request here is taken through its `POST` form data, and `credentials`
is the optional credentials dict. -/
def get_client_username (s : Settings) (post : List (String × String))
    (credentials : Option (List (String × String))) : Except String (Option String) :=
  match s.AXES_USERNAME_CALLABLE with
  | .callable f => .ok (f post credentials)
  | .importable _ f => .ok (f post credentials)
  | .invalid =>
      .error "settings.AXES_USERNAME_CALLABLE needs to be a string, callable, or None."
  | .unset =>
      if dictTruthy credentials then
        .ok (dictGet (credentials.getD []) s.AXES_USERNAME_FORM_FIELD)
      else
        .ok (dictGet post s.AXES_USERNAME_FORM_FIELD)

/-! MD5 (RFC 1321), as computed by Python's `hashlib.md5(...).hexdigest()`,
embedded over `Nat` with explicit reduction modulo `2 ^ 32`. -/

/-- Modulus for 32-bit words. -/
def M32 : Nat := 4294967296

/-- Bitwise complement on a 32-bit word (value assumed `< 2 ^ 32`). -/
def compl32 (x : Nat) : Nat := Nat.xor x 4294967295

/-- Left rotation of a 32-bit word by `n` places. -/
def rotl32 (x n : Nat) : Nat :=
  (Nat.lor (Nat.shiftLeft x n) (Nat.shiftRight x (32 - n))) % M32

/-- The 64 MD5 sine-derived round constants. -/
def md5K : List Nat :=
  [0xd76aa478, 0xe8c7b756, 0x242070db, 0xc1bdceee,
   0xf57c0faf, 0x4787c62a, 0xa8304613, 0xfd469501,
   0x698098d8, 0x8b44f7af, 0xffff5bb1, 0x895cd7be,
   0x6b901122, 0xfd987193, 0xa679438e, 0x49b40821,
   0xf61e2562, 0xc040b340, 0x265e5a51, 0xe9b6c7aa,
   0xd62f105d, 0x02441453, 0xd8a1e681, 0xe7d3fbc8,
   0x21e1cde6, 0xc33707d6, 0xf4d50d87, 0x455a14ed,
   0xa9e3e905, 0xfcefa3f8, 0x676f02d9, 0x8d2a4c8a,
   0xfffa3942, 0x8771f681, 0x6d9d6122, 0xfde5380c,
   0xa4beea44, 0x4bdecfa9, 0xf6bb4b60, 0xbebfbc70,
   0x289b7ec6, 0xeaa127fa, 0xd4ef3085, 0x04881d05,
   0xd9d4d039, 0xe6db99e5, 0x1fa27cf8, 0xc4ac5665,
   0xf4292244, 0x432aff97, 0xab9423a7, 0xfc93a039,
   0x655b59c3, 0x8f0ccc92, 0xffeff47d, 0x85845dd1,
   0x6fa87e4f, 0xfe2ce6e0, 0xa3014314, 0x4e0811a1,
   0xf7537e82, 0xbd3af235, 0x2ad7d2bb, 0xeb86d391]

/-- The 64 MD5 per-round left-rotation amounts. -/
def md5S : List Nat :=
  [7, 12, 17, 22, 7, 12, 17, 22, 7, 12, 17, 22, 7, 12, 17, 22,
   5, 9, 14, 20, 5, 9, 14, 20, 5, 9, 14, 20, 5, 9, 14, 20,
   4, 11, 16, 23, 4, 11, 16, 23, 4, 11, 16, 23, 4, 11, 16, 23,
   6, 10, 15, 21, 6, 10, 15, 21, 6, 10, 15, 21, 6, 10, 15, 21]

/-- One MD5 round applied to the state `(a, b, c, d)`, with `w` the 16
message words of the current chunk and `i` the round index. -/
def md5Round (w : List Nat) (st : Nat × Nat × Nat × Nat) (i : Nat) :
    Nat × Nat × Nat × Nat :=
  let a := st.1
  let b := st.2.1
  let c := st.2.2.1
  let d := st.2.2.2
  let fg : Nat × Nat :=
    if i < 16 then
      (Nat.lor (Nat.land b c) (Nat.land (compl32 b) d), i)
    else if i < 32 then
      (Nat.lor (Nat.land d b) (Nat.land (compl32 d) c), (5 * i + 1) % 16)
    else if i < 48 then
      (Nat.xor (Nat.xor b c) d, (3 * i + 5) % 16)
    else
      (Nat.xor c (Nat.lor b (compl32 d)), (7 * i) % 16)
  let f := (fg.1 + a + md5K.getD i 0 + w.getD fg.2 0) % M32
  (d, (b + rotl32 f (md5S.getD i 0)) % M32, b, c)

/-- Split a 64-byte chunk into its 16 little-endian 32-bit words. -/
def md5Words (chunk : List Nat) : List Nat :=
  (List.range 16).map (fun j =>
    chunk.getD (4 * j) 0 +
    chunk.getD (4 * j + 1) 0 * 256 +
    chunk.getD (4 * j + 2) 0 * 65536 +
    chunk.getD (4 * j + 3) 0 * 16777216)

/-- Process one 64-byte chunk, updating the running MD5 state. -/
def md5ProcessChunk (h : Nat × Nat × Nat × Nat) (chunk : List Nat) :
    Nat × Nat × Nat × Nat :=
  let w := md5Words chunk
  let r := (List.range 64).foldl (md5Round w) h
  ((h.1 + r.1) % M32, (h.2.1 + r.2.1) % M32,
   (h.2.2.1 + r.2.2.1) % M32, (h.2.2.2 + r.2.2.2) % M32)

/-- MD5 padding: append the `0x80` byte, zero bytes up to 56 modulo 64,
then the original length in bits as 8 little-endian bytes. -/
def md5Pad (msg : List Nat) : List Nat :=
  let len := msg.length
  let zeros := (119 - len % 64) % 64
  let bitLen := (len * 8) % (2 ^ 64)
  msg ++ [128] ++ List.replicate zeros 0 ++
    (List.range 8).map (fun i => bitLen / (2 ^ (8 * i)) % 256)

/-- Split a byte list into 64-byte chunks; the fuel argument (any bound
on the number of chunks, the list length suffices) makes the recursion
structural. -/
def toChunksAux : Nat → List Nat → List (List Nat)
  | 0, _ => []
  | _ + 1, [] => []
  | fuel + 1, l => l.take 64 :: toChunksAux fuel (l.drop 64)

/-- Split a byte list into 64-byte chunks. -/
def toChunks (l : List Nat) : List (List Nat) :=
  toChunksAux l.length l

/-- Hexadecimal digit character (lowercase) for `n < 16`. -/
def hexDigitChar (n : Nat) : Char :=
  if n < 10 then Char.ofNat (48 + n) else Char.ofNat (87 + n)

/-- Two lowercase hexadecimal characters for a byte. -/
def byteToHex (b : Nat) : String :=
  String.mk [hexDigitChar (b / 16), hexDigitChar (b % 16)]

/-- The 4 little-endian bytes of a 32-bit word. -/
def u32LEBytes (w : Nat) : List Nat :=
  [w % 256, w / 256 % 256, w / 65536 % 256, w / 16777216 % 256]

/-- MD5 digest of a byte list, rendered as the 32-character lowercase
hexadecimal string returned by `hashlib.md5(...).hexdigest()`. -/
def md5HexDigest (msg : List Nat) : String :=
  let h := (toChunks (md5Pad msg)).foldl md5ProcessChunk
    (0x67452301, 0xefcdab89, 0x98badcfe, 0x10325476)
  String.join ((u32LEBytes h.1 ++ u32LEBytes h.2.1 ++
    u32LEBytes h.2.2.1 ++ u32LEBytes h.2.2.2).map byteToHex)

/-- UTF-8 encoding of one character, as byte values. -/
def utf8EncodeChar (c : Char) : List Nat :=
  let n := c.toNat
  if n < 128 then [n]
  else if n < 2048 then [192 + n / 64, 128 + n % 64]
  else if n < 65536 then [224 + n / 4096, 128 + n / 64 % 64, 128 + n % 64]
  else [240 + n / 262144, 128 + n / 4096 % 64, 128 + n / 64 % 64, 128 + n % 64]

/-- UTF-8 encoding of a string (Python `str.encode()`), as byte values. -/
def utf8Bytes (s : String) : List Nat :=
  (s.data.map utf8EncodeChar).flatten

/-- Embedding of `get_client_cache_key` (`axes/helpers.py`) on the branch
where the username, IP address and user agent are taken from an attempt
object (the `HttpRequest` branch resolves the same three fields and then
runs the identical computation).  Joins the truthy selected values with no
separator, hashes the UTF-8 encoding with MD5, and prefixes `axes-`. -/
def get_client_cache_key (s : Settings) (username ip_address user_agent : Option String) :
    String :=
  let filter_kwargs := get_client_parameters s username ip_address user_agent
  let cache_key_components :=
    String.join (filter_kwargs.filterMap (fun kv => truthyValue kv.2))
  let cache_key_digest := md5HexDigest (utf8Bytes cache_key_components)
  "axes-" ++ cache_key_digest

/-- Embedding of `get_cool_off_iso8601` (`axes/helpers.py`) for
whole-second durations: `delta.total_seconds()` is then an integral
float, the `divmod` chain stays integral, and `f'{value:.0f}'` renders
exactly the integer, so the computation is faithfully carried out on
`Nat`.  The successive `divmod` splits mirror the source line by line. -/
def get_cool_off_iso8601 (total_seconds : Nat) : String :=
  let minutes0 := total_seconds / 60
  let seconds := total_seconds % 60
  let hours0 := minutes0 / 60
  let minutes := minutes0 % 60
  let days := hours0 / 24
  let hours := hours0 % 24
  let days_str := if days ≠ 0 then toString days ++ "D" else ""
  let time_str := String.join
    ([(hours, "H"), (minutes, "M"), (seconds, "S")].filterMap
      (fun vd => if vd.1 ≠ 0 then some (toString vd.1 ++ vd.2) else none))
  if time_str ≠ "" then "P" ++ days_str ++ "T" ++ time_str
  else "P" ++ days_str

/-! Concrete settings and request values used by the witness and
counterexample theorems below. -/

/-- Baseline settings: IP-only tracking, no whitelists or blacklists,
failure counting active with the default limit of 5. -/
def baseSettings : Settings where
  AXES_ONLY_USER_FAILURES := false
  AXES_LOCK_OUT_BY_COMBINATION_USER_AND_IP := false
  AXES_USE_USER_AGENT := false
  AXES_ONLY_WHITELIST := false
  AXES_NEVER_LOCKOUT_WHITELIST := false
  AXES_NEVER_LOCKOUT_GET := false
  AXES_IP_WHITELIST := none
  AXES_IP_BLACKLIST := none
  AXES_LOCK_OUT_AT_FAILURE := true
  AXES_FAILURE_LIMIT := 5
  AXES_USERNAME_FORM_FIELD := "username"
  AXES_USERNAME_CALLABLE := .unset

/-- Settings with `10.0.0.1` on both the blacklist and the whitelist and
`AXES_NEVER_LOCKOUT_WHITELIST` enabled. -/
def sBothLists : Settings :=
  { baseSettings with
      AXES_IP_BLACKLIST := some ["10.0.0.1"]
      AXES_IP_WHITELIST := some ["10.0.0.1"]
      AXES_NEVER_LOCKOUT_WHITELIST := true }

/-- A request from `10.0.0.1`. -/
def reqBoth : Request := ⟨some "10.0.0.1", "POST", []⟩

/-- Settings with `AXES_ONLY_WHITELIST` enabled, a whitelist not
containing `10.1.1.1`, and an empty blacklist. -/
def sOnlyWl : Settings :=
  { baseSettings with
      AXES_ONLY_WHITELIST := true
      AXES_IP_WHITELIST := some ["192.168.0.1"]
      AXES_IP_BLACKLIST := some [] }

/-- A request from `10.1.1.1`, an IP on neither list. -/
def reqOnlyWl : Request := ⟨some "10.1.1.1", "POST", []⟩

/-- Settings with failure counting turned off. -/
def sLockOff : Settings := { baseSettings with AXES_LOCK_OUT_AT_FAILURE := false }

/-- A request from `10.0.0.5`, an IP on neither list. -/
def reqPlain : Request := ⟨some "10.0.0.5", "POST", []⟩

/-- Settings tracking only user failures, with the user-agent flag also
set (which must be ignored in this mode). -/
def sUserOnly : Settings :=
  { baseSettings with
      AXES_ONLY_USER_FAILURES := true
      AXES_USE_USER_AGENT := true }

/-- Settings with the safe-method bypass enabled and `10.0.0.1`
blacklisted. -/
def sGetBlack : Settings :=
  { baseSettings with
      AXES_NEVER_LOCKOUT_GET := true
      AXES_IP_BLACKLIST := some ["10.0.0.1"] }

/-- A GET request from the blacklisted IP `10.0.0.1`. -/
def reqGetBlack : Request := ⟨some "10.0.0.1", "GET", []⟩

/-- Settings with the safe-method bypass enabled and empty lists. -/
def sGetOnly : Settings := { baseSettings with AXES_NEVER_LOCKOUT_GET := true }

/-- A GET request from an unlisted IP. -/
def reqGetPlain : Request := ⟨some "10.0.0.9", "GET", []⟩

/-- Settings whose `AXES_USERNAME_CALLABLE` is configured with a value
that is neither callable nor a string. -/
def sBadCallable : Settings := { baseSettings with AXES_USERNAME_CALLABLE := .invalid }

/-- Settings with `AXES_ONLY_WHITELIST` enabled and an empty whitelist. -/
def sEmptyWl : Settings :=
  { baseSettings with
      AXES_ONLY_WHITELIST := true
      AXES_IP_WHITELIST := some [] }

/-- A request whose client IP could not be resolved. -/
def reqNoIp : Request := ⟨none, "POST", []⟩

end Axes

namespace Axes

/-- Helper: each byte renders as exactly two hexadecimal characters. -/
theorem byteToHex_length (b : Nat) : (byteToHex b).length = 2 := rfl

/-- Helper: the MD5 hex digest of any message has exactly 32 characters
(the 128-bit digest rendered two characters per byte). -/
theorem md5HexDigest_length (msg : List Nat) : (md5HexDigest msg).length = 32 := by
  simp [md5HexDigest, u32LEBytes, String.join, byteToHex_length]

/-- Helper shared by the `only_whitelist` claims: with
`AXES_ONLY_WHITELIST` enabled, an IP for which the whitelist membership
test fails is reported blacklisted and the request is denied. -/
theorem only_whitelist_denied_of_not_in_whitelist (s : Settings) (request : Request)
    (failures : Int) (how : s.AXES_ONLY_WHITELIST = true)
    (hnw : is_ip_address_in_whitelist s request.axes_ip_address = false) :
    is_client_ip_address_blacklisted s request = true ∧
    is_allowed s request failures = false := by
  have hb : is_client_ip_address_blacklisted s request = true := by
    simp [is_client_ip_address_blacklisted, how, hnw]
  exact ⟨hb, by simp [is_allowed, is_blacklisted, hb]⟩

set_option maxRecDepth 100000 in
/-- Sanity check of the MD5 embedding against the RFC 1321 test value for
the empty message. -/
theorem md5_rfc1321_empty : md5HexDigest (utf8Bytes "") = "d41d8cd98f00b204e9800998ecf8427e" := by
  decide

set_option maxRecDepth 100000 in
/-- Sanity check of the MD5 embedding against the RFC 1321 test value for
the message `abc`. -/
theorem md5_rfc1321_abc :
    md5HexDigest (utf8Bytes "abc") = "900150983cd24fb0d6963f7d28e17f72" := by
  decide

set_option maxRecDepth 100000 in
/-- Sanity check of the cache-key pipeline against
`hashlib.md5('127.0.0.1'.encode()).hexdigest()` computed by CPython for
the default IP-only tracking settings. -/
theorem cache_key_reference_value :
    get_client_cache_key baseSettings none (some "127.0.0.1") none =
      "axes-f528764d624db129b32c21fbca0cb8d6" := by
  decide

/-- C1: a client IP present in both `ip_blacklist` and `ip_whitelist`
(with `never_lockout_whitelist` enabled) is reported whitelisted by the
whitelist predicate, yet `is_allowed` returns Denied because the
blacklist check runs and short-circuits strictly before the whitelist
check. -/
theorem blacklist_precedes_whitelist (s : Settings) (request : Request) (failures : Int)
    (ip : String) (bl wl : List String)
    (hip : request.axes_ip_address = some ip)
    (hbl : s.AXES_IP_BLACKLIST = some bl) (hmbl : ip ∈ bl)
    (hwl : s.AXES_IP_WHITELIST = some wl) (hmwl : ip ∈ wl)
    (hnlw : s.AXES_NEVER_LOCKOUT_WHITELIST = true) :
    is_client_ip_address_whitelisted s request = true ∧
    is_allowed s request failures = false := by
  have hwlt : is_ip_address_in_whitelist s request.axes_ip_address = true := by
    simp [is_ip_address_in_whitelist, hwl, hip, optMem, List.contains,
      List.ne_nil_of_mem hmwl, hmwl]
  have hblt : is_ip_address_in_blacklist s request.axes_ip_address = true := by
    simp [is_ip_address_in_blacklist, hbl, hip, optMem, List.contains,
      List.ne_nil_of_mem hmbl, hmbl]
  refine ⟨by simp [is_client_ip_address_whitelisted, hwlt, hnlw], ?_⟩
  simp [is_allowed, is_blacklisted, is_client_ip_address_blacklisted, hblt]

/-- Witness for C1 at IP `10.0.0.1`, on both lists. -/
theorem blacklist_precedes_whitelist_witness :
    is_client_ip_address_whitelisted sBothLists reqBoth = true ∧
    is_allowed sBothLists reqBoth 0 = false :=
  blacklist_precedes_whitelist sBothLists reqBoth 0 "10.0.0.1" ["10.0.0.1"] ["10.0.0.1"]
    rfl rfl (by decide) rfl (by decide) rfl

/-- C2: with `only_whitelist` enabled, a request whose client IP fails
the whitelist membership test is reported blacklisted and `is_allowed`
returns Denied, with no assumption at all about `ip_blacklist`
membership. -/
theorem only_whitelist_denies_unlisted (s : Settings) (request : Request) (failures : Int)
    (how : s.AXES_ONLY_WHITELIST = true)
    (hnw : is_ip_address_in_whitelist s request.axes_ip_address = false) :
    is_client_ip_address_blacklisted s request = true ∧
    is_allowed s request failures = false :=
  only_whitelist_denied_of_not_in_whitelist s request failures how hnw

/-- Witness for C2: IP `10.1.1.1` is absent from the whitelist and from
the (empty) blacklist, and is denied. -/
theorem only_whitelist_denies_unlisted_witness :
    is_client_ip_address_blacklisted sOnlyWl reqOnlyWl = true ∧
    is_allowed sOnlyWl reqOnlyWl 0 = false :=
  only_whitelist_denies_unlisted sOnlyWl reqOnlyWl 0 rfl (by decide)

/-- C3: when `lock_out_at_failure` is false the lockout step never
locks; when it is true the request is locked out exactly when the
injected failure count reaches `failure_limit`; and with a limit of 5,
a request that is neither blacklisted nor whitelisted is Allowed at
count 4 and Denied at count 5. -/
theorem lockout_threshold (s : Settings) (request : Request) (failures : Int) :
    (s.AXES_LOCK_OUT_AT_FAILURE = false → is_locked s failures = false) ∧
    (s.AXES_LOCK_OUT_AT_FAILURE = true →
      (is_locked s failures = true ↔ s.AXES_FAILURE_LIMIT ≤ failures)) ∧
    (s.AXES_LOCK_OUT_AT_FAILURE = true → s.AXES_FAILURE_LIMIT = 5 →
      is_blacklisted s request = false → is_whitelisted s request = false →
      is_allowed s request 4 = true ∧ is_allowed s request 5 = false) := by
  refine ⟨fun h => by simp [is_locked, h], fun h => by simp [is_locked, h, ge_iff_le], ?_⟩
  intro h hl hb hw
  constructor <;> simp [is_allowed, hb, hw, is_locked, h, hl]

/-- Witness for C3: lockout off allows at count 7; with the baseline
limit of 5, count 4 is Allowed and count 5 is Denied. -/
theorem lockout_threshold_witness :
    is_locked sLockOff 7 = false ∧
    is_allowed baseSettings reqPlain 4 = true ∧
    is_allowed baseSettings reqPlain 5 = false :=
  ⟨(lockout_threshold sLockOff reqPlain 7).1 rfl,
   ((lockout_threshold baseSettings reqPlain 0).2.2 rfl rfl (by decide) (by decide)).1,
   ((lockout_threshold baseSettings reqPlain 0).2.2 rfl rfl (by decide) (by decide)).2⟩

/-- C4: two fingerprints selecting identical tracked fields produce the
identical cache key; in particular with `only_user_failures` enabled,
changing the IP address alone never changes the key. -/
theorem cache_key_coalescing :
    (∀ (s : Settings) (u1 ip1 ua1 u2 ip2 ua2 : Option String),
      get_client_parameters s u1 ip1 ua1 = get_client_parameters s u2 ip2 ua2 →
      get_client_cache_key s u1 ip1 ua1 = get_client_cache_key s u2 ip2 ua2) ∧
    (∀ (s : Settings) (u ip1 ip2 ua : Option String),
      s.AXES_ONLY_USER_FAILURES = true →
      get_client_cache_key s u ip1 ua = get_client_cache_key s u ip2 ua) := by
  constructor
  · intro s u1 ip1 ua1 u2 ip2 ua2 h
    simp only [get_client_cache_key, h]
  · intro s u ip1 ip2 ua h
    simp [get_client_cache_key, get_client_parameters, h]

/-- Witness for C4: under user-only tracking, fingerprints differing in
IP (and even user agent) share one cache key. -/
theorem cache_key_coalescing_witness :
    get_client_cache_key sUserOnly (some "alice") (some "10.0.0.1") none =
      get_client_cache_key sUserOnly (some "alice") (some "10.0.0.2") (some "agent") ∧
    get_client_cache_key sUserOnly (some "alice") (some "10.0.0.1") none =
      get_client_cache_key sUserOnly (some "alice") (some "10.0.0.2") none :=
  ⟨cache_key_coalescing.1 sUserOnly (some "alice") (some "10.0.0.1") none
      (some "alice") (some "10.0.0.2") (some "agent") (by decide),
   cache_key_coalescing.2 sUserOnly (some "alice") (some "10.0.0.1") (some "10.0.0.2")
      none rfl⟩

/-- C5: the tracking-parameter selection returns, in insertion order,
exactly `{username}` under `only_user_failures` (the user agent is never
appended in this mode, whatever `use_user_agent` holds); otherwise
`{username, ip_address}` under the combination flag, else
`{ip_address}`, and in these two modes the user agent is appended
exactly when `use_user_agent` is set. -/
theorem tracking_parameter_selection (s : Settings) (u ip ua : Option String) :
    (s.AXES_ONLY_USER_FAILURES = true →
      get_client_parameters s u ip ua = [("username", u)]) ∧
    (s.AXES_ONLY_USER_FAILURES = false →
      s.AXES_LOCK_OUT_BY_COMBINATION_USER_AND_IP = true →
      s.AXES_USE_USER_AGENT = true →
      get_client_parameters s u ip ua =
        [("username", u), ("ip_address", ip), ("user_agent", ua)]) ∧
    (s.AXES_ONLY_USER_FAILURES = false →
      s.AXES_LOCK_OUT_BY_COMBINATION_USER_AND_IP = true →
      s.AXES_USE_USER_AGENT = false →
      get_client_parameters s u ip ua = [("username", u), ("ip_address", ip)]) ∧
    (s.AXES_ONLY_USER_FAILURES = false →
      s.AXES_LOCK_OUT_BY_COMBINATION_USER_AND_IP = false →
      s.AXES_USE_USER_AGENT = true →
      get_client_parameters s u ip ua = [("ip_address", ip), ("user_agent", ua)]) ∧
    (s.AXES_ONLY_USER_FAILURES = false →
      s.AXES_LOCK_OUT_BY_COMBINATION_USER_AND_IP = false →
      s.AXES_USE_USER_AGENT = false →
      get_client_parameters s u ip ua = [("ip_address", ip)]) := by
  refine ⟨fun h1 => ?_, fun h1 h2 h3 => ?_, fun h1 h2 h3 => ?_,
    fun h1 h2 h3 => ?_, fun h1 h2 h3 => ?_⟩ <;>
    simp [get_client_parameters, h1, *]

/-- Witness for C5: user-only tracking with the user-agent flag set
still selects only the username. -/
theorem tracking_parameter_selection_witness :
    get_client_parameters sUserOnly (some "bob") (some "127.0.0.1") (some "agent") =
      [("username", some "bob")] :=
  (tracking_parameter_selection sUserOnly (some "bob") (some "127.0.0.1")
    (some "agent")).1 rfl

/-- C6: the cache key is the fixed `axes-` namespace tag followed by the
32-character lowercase-hex MD5 digest of the UTF-8 encoding of the
separator-free concatenation of the truthy selected field values in
selection order; consequently the whole key has 37 characters. -/
theorem cache_key_construction (s : Settings) (u ip ua : Option String) :
    get_client_cache_key s u ip ua =
      "axes-" ++ md5HexDigest (utf8Bytes (String.join
        ((get_client_parameters s u ip ua).filterMap (fun kv => truthyValue kv.2)))) ∧
    (get_client_cache_key s u ip ua).length = 37 := by
  refine ⟨rfl, ?_⟩
  have h5 : ("axes-" : String).length = 5 := rfl
  simp [get_client_cache_key, String.length_append, md5HexDigest_length, h5]

/-- C7 counterexample: a GET request from a blacklisted IP is Denied
even though `never_lockout_get` is enabled and the method is GET, so the
claim as stated (Allowed for every such request) is false. -/
theorem safe_method_counterexample :
    sGetBlack.AXES_NEVER_LOCKOUT_GET = true ∧ reqGetBlack.method = "GET" ∧
    is_allowed sGetBlack reqGetBlack 0 = false := by
  refine ⟨rfl, rfl, by decide⟩

/-- C7 (amended): for every request with `never_lockout_get` enabled and
a GET method that the blacklist step does not deny, `is_allowed` returns
Allowed regardless of the failure count. -/
theorem safe_method_bypass (s : Settings) (request : Request) (failures : Int)
    (hget : s.AXES_NEVER_LOCKOUT_GET = true) (hm : request.method = "GET")
    (hnb : is_blacklisted s request = false) :
    is_allowed s request failures = true := by
  have hw : is_whitelisted s request = true := by
    cases hipw : is_client_ip_address_whitelisted s request <;>
      simp [is_whitelisted, is_client_method_whitelisted, hget, hm, hipw]
  simp [is_allowed, hnb, hw]

/-- Witness for the amended C7: an unlisted IP making a GET request is
Allowed even at failure count 100. -/
theorem safe_method_bypass_witness :
    is_allowed sGetOnly reqGetPlain 100 = true :=
  safe_method_bypass sGetOnly reqGetPlain 100 rfl rfl (by decide)

/-- C8: the formatter emits a `P` designator, a day component only when
nonzero, and a `T` separator with hour/minute/second components each
only when nonzero; 1 hour 30 minutes renders as `PT1H30M`, exactly two
days as `P2D`, and zero as the bare `P`. -/
theorem duration_format :
    (∀ n : Nat, get_cool_off_iso8601 n =
      (if (if n / 3600 % 24 ≠ 0 then toString (n / 3600 % 24) ++ "H" else "") ++
          (if n / 60 % 60 ≠ 0 then toString (n / 60 % 60) ++ "M" else "") ++
          (if n % 60 ≠ 0 then toString (n % 60) ++ "S" else "") ≠ "" then
        "P" ++ (if n / 86400 ≠ 0 then toString (n / 86400) ++ "D" else "") ++ "T" ++
          ((if n / 3600 % 24 ≠ 0 then toString (n / 3600 % 24) ++ "H" else "") ++
           (if n / 60 % 60 ≠ 0 then toString (n / 60 % 60) ++ "M" else "") ++
           (if n % 60 ≠ 0 then toString (n % 60) ++ "S" else ""))
      else
        "P" ++ (if n / 86400 ≠ 0 then toString (n / 86400) ++ "D" else ""))) ∧
    get_cool_off_iso8601 5400 = "PT1H30M" ∧
    get_cool_off_iso8601 172800 = "P2D" ∧
    get_cool_off_iso8601 0 = "P" := by
  refine ⟨?_, by decide, by decide, by decide⟩
  intro n
  have h1 : n / 60 / 60 = n / 3600 := by
    rw [Nat.div_div_eq_div_mul]
  have h2 : n / 3600 / 24 = n / 86400 := by
    rw [Nat.div_div_eq_div_mul]
  simp only [get_cool_off_iso8601, h1, h2]
  by_cases hh : n / 3600 % 24 = 0 <;> by_cases hm2 : n / 60 % 60 = 0 <;>
    by_cases hs : n % 60 = 0 <;>
    simp [hh, hm2, hs, String.join, h2]

/-- C9: a configured username-resolution reference that is neither
callable nor a string makes resolution raise `TypeError` at once; with
the reference unset, resolution from credentials or form data never
raises, and a missing username field resolves to `None`. -/
theorem username_resolution (s : Settings) (post : List (String × String))
    (credentials : Option (List (String × String))) :
    (s.AXES_USERNAME_CALLABLE = .invalid →
      get_client_username s post credentials =
        .error "settings.AXES_USERNAME_CALLABLE needs to be a string, callable, or None.") ∧
    (s.AXES_USERNAME_CALLABLE = .unset →
      (∃ u, get_client_username s post credentials = .ok u) ∧
      (dictTruthy credentials = true →
        dictGet (credentials.getD []) s.AXES_USERNAME_FORM_FIELD = none →
        get_client_username s post credentials = .ok none) ∧
      (dictTruthy credentials = false →
        dictGet post s.AXES_USERNAME_FORM_FIELD = none →
        get_client_username s post credentials = .ok none)) := by
  constructor
  · intro h
    simp [get_client_username, h]
  · intro h
    refine ⟨?_, ?_, ?_⟩
    · simp only [get_client_username, h]
      cases dictTruthy credentials <;> exact ⟨_, rfl⟩
    · intro ht hmiss
      simp [get_client_username, h, ht, hmiss]
    · intro ht hmiss
      simp [get_client_username, h, ht, hmiss]

/-- Witness for C9: the invalid reference errors; with no credentials
and a form lacking the `username` field, resolution yields `None`. -/
theorem username_resolution_witness :
    get_client_username sBadCallable [] none =
      .error "settings.AXES_USERNAME_CALLABLE needs to be a string, callable, or None." ∧
    get_client_username baseSettings [("email", "a@b.example")] none = .ok none :=
  ⟨(username_resolution sBadCallable [] none).1 rfl,
   ((username_resolution baseSettings [("email", "a@b.example")] none).2 rfl).2.2
     rfl (by decide)⟩

/-- C10: with `only_whitelist` enabled and the whitelist unset or empty,
every request is reported blacklisted and `is_allowed` returns Denied,
whatever the client IP (including an unresolved `None`). -/
theorem empty_whitelist_denies_all (s : Settings) (request : Request) (failures : Int)
    (how : s.AXES_ONLY_WHITELIST = true)
    (hwl : s.AXES_IP_WHITELIST = none ∨ s.AXES_IP_WHITELIST = some []) :
    is_client_ip_address_blacklisted s request = true ∧
    is_allowed s request failures = false := by
  have hnw : is_ip_address_in_whitelist s request.axes_ip_address = false := by
    rcases hwl with h | h <;> simp [is_ip_address_in_whitelist, h]
  exact only_whitelist_denied_of_not_in_whitelist s request failures how hnw

/-- Witness for C10: an empty whitelist under `only_whitelist` denies a
request whose IP could not even be resolved. -/
theorem empty_whitelist_denies_all_witness :
    is_client_ip_address_blacklisted sEmptyWl reqNoIp = true ∧
    is_allowed sEmptyWl reqNoIp 3 = false :=
  empty_whitelist_denies_all sEmptyWl reqNoIp 3 rfl (Or.inr rfl)

end Axes
